import Mathlib

/-!
Verification of the docker_deploy orchestration script
(`src/docker_deploy/docker_deploy.py`).

The program is a sequential shell-out wrapper: every action reads the
filesystem, possibly changes the process working directory, prints
messages and invokes external commands (`docker-compose`, `sudo chown`,
`cp`, `mv`, ...).  We embed it as a state machine over a `PState`
(current working directory plus the ordered trace of emitted events),
with the ambient filesystem and parsed compose file given as read-only
parameters:

* `FS` models the filesystem queries the script performs
  (`os.path.isfile`, `os.path.isdir`, `os.stat(..).st_uid`,
  `pwd.getpwuid(..).pw_name`, `os.listdir`).
* `Event` records each `print` and each `subprocess.check_call` argv.
* `Res` models normal return versus `sys.exit(status)`.
* External commands are modelled as succeeding (the traces proved below
  are the traces of runs in which every external command succeeds).
* `os.path.abspath` / `os.chdir` path resolution is modelled by
  `resolvePath`, which returns absolute paths unchanged and joins
  relative ones onto the working directory (no `.`/`..` normalisation;
  theorems that need stable paths take absolute-path hypotheses).
* `datetime.now(timezone.utc).strftime` is modelled by a string
  parameter `ts` standing for the `%Y%m%d_%H%M%S` part; the literal
  `_utc` suffix of the format strings is appended explicitly.
-/

namespace DockerDeploy

/-- A console print (`msg`) or an external command invocation (`cmd`,
recording the argv passed to `subprocess.check_call`). -/
inductive Event where
  | cmd : List String → Event
  | msg : String → Event
  deriving DecidableEq, Repr

/-- The filesystem interface consumed by the script (read-only during a
run; the script mutates the filesystem only through external commands,
which are recorded as events). -/
structure FS where
  isFile : String → Bool
  isDir : String → Bool
  ownerUid : String → Nat
  uidName : Nat → String
  listDir : String → List String

/-- One entry of the compose file service mapping: its name and, when
the service declares a `volumes` key, the list of volume strings. -/
structure Service where
  name : String
  volumes : Option (List String)
  deriving DecidableEq, Repr

/-- The parsed compose file: `services` is `none` when the top-level
`services` key is absent. -/
structure ComposeData where
  services : Option (List Service)
  deriving DecidableEq, Repr

/-- Process state: current working directory and the trace of events
emitted so far (in order). -/
structure PState where
  cwd : String
  events : List Event
  deriving DecidableEq, Repr

/-- Result of an action: normal return with a value, or `sys.exit n`
(carrying the state at the moment of exit, so "no further action" is
expressible as an exact event trace). -/
inductive Res (α : Type) where
  | ok : α → PState → Res α
  | exit : Nat → PState → Res α
  deriving DecidableEq, Repr

/-! ## String helpers (Python string operations used by the script) -/

/-- Boolean prefix test on character lists. -/
def isPrefixOfChars : List Char → List Char → Bool
  | [], _ => true
  | _ :: _, [] => false
  | p :: ps, c :: cs => decide (p = c) && isPrefixOfChars ps cs

/-- Python `s.startswith(pre)`. -/
def strStartsWith (pre s : String) : Bool :=
  isPrefixOfChars pre.data s.data

/-- Characters before the first `:` (helper for Python `s.split(":")[0]`). -/
def takeUntilColon : List Char → List Char
  | [] => []
  | c :: cs => if c = ':' then [] else c :: takeUntilColon cs

/-- Python `volume.split(":")[0]`: the host-path segment of a compose
volume declaration. -/
def volumeHostPath (v : String) : String :=
  String.mk (takeUntilColon v.data)

/-- Helper for `afterLastSlash`: accumulate the current segment,
resetting at every `/`. -/
def afterLastSlashChars : List Char → List Char → List Char
  | acc, [] => acc.reverse
  | acc, c :: cs => if c = '/' then afterLastSlashChars [] cs else afterLastSlashChars (c :: acc) cs

/-- Python `s.split("/")[-1]`: the final path component. -/
def afterLastSlash (s : String) : String :=
  String.mk (afterLastSlashChars [] s.data)

/-- A path is absolute when it starts with `/`. -/
def pathIsAbs (s : String) : Bool := strStartsWith "/" s

/-- Resolution of a possibly relative path against a working directory
(abstraction of `os.chdir`/`os.path.abspath`; no `.`/`..`
normalisation). -/
def resolvePath (cwd p : String) : String :=
  if pathIsAbs p then p else cwd ++ "/" ++ p

/-- The working directory reached by `change_cwd` for an optional path
argument (`none` leaves the working directory unchanged). -/
def targetDir (cwd : String) : Option String → String
  | none => cwd
  | some p => resolvePath cwd p

/-- `optPathAbs pp` holds when the optional path argument is absent or
absolute. -/
def optPathAbs : Option String → Bool
  | none => true
  | some p => pathIsAbs p

/-- Append one event to the trace. -/
def emit (st : PState) (e : Event) : PState :=
  { st with events := st.events ++ [e] }

/-- Append a list of events to the trace. -/
def emitAll (st : PState) (es : List Event) : PState :=
  { st with events := st.events ++ es }

/-! ## The embedded program -/

/-- `COMPOSE_FILES` from the source: the fixed priority-ordered list of
candidate compose filenames, relative to the search directory. -/
def COMPOSE_FILES : List String :=
  ["./docker-compose.yml", "./docker-compose.yaml", "./compose.yml", "./compose.yaml"]

/-- `change_cwd(path)`: change the working directory (when a path is
given) and return the old working directory together with the new
state. -/
def change_cwd (st : PState) (path : Option String) : String × PState :=
  (st.cwd, { st with cwd := targetDir st.cwd path })

/-- The compose-file search loop shared by `volumes_from_compose_file`
and `check_compose_file`: the first candidate in `COMPOSE_FILES` that is
a regular file in the working directory. -/
def findComposeFile (fs : FS) (cwd : String) : Option String :=
  COMPOSE_FILES.find? (fun c => fs.isFile (resolvePath cwd c))

/-- Error message printed when no compose file is found while
extracting volumes. -/
def composeNotFoundMsg (cwd : String) : String :=
  "Could not find any of the compose files in " ++ cwd

/-- Error message printed when the compose file lacks a `services`
key. -/
def noServicesMsg : String :=
  "ERROR: Found compose file but not services in it"

/-- Error message printed by `check_compose_file` when no compose file
is found. -/
def checkComposeErrMsg : String :=
  "ERROR: Could not find any of the compose files"

/-- The per-volume step of the extraction loop (body of the inner loop
of `volumes_from_compose_file`, lines 73-86): returns the warning
events printed and the `(path, owner)` pair recorded, if any.

* host path not a directory: record `(path, "root")` (sentinel);
* declaration not starting with `/opt/`: warn and record nothing;
* otherwise: record the path with its owning user name. -/
def extractVolume (fs : FS) (cwd : String) (volume : String) :
    List Event × Option (String × String) :=
  let volume_path := volumeHostPath volume
  if fs.isDir (resolvePath cwd volume_path) = false then
    ([], some (volume_path, "root"))
  else if strStartsWith "/opt/" volume = false then
    ([Event.msg ("WARNING: Skipping volume, must start with /opt/ : " ++ volume_path)], none)
  else
    ([], some (volume_path, fs.uidName (fs.ownerUid (resolvePath cwd volume_path))))

/-- The volume declarations of a service (empty when the service has no
`volumes` key). -/
def serviceVolumeDecls (s : Service) : List String :=
  s.volumes.getD []

/-- All warning events printed by the extraction loop, in iteration
order. -/
def extractEvents (fs : FS) (cwd : String) (svcs : List Service) : List Event :=
  (svcs.map (fun s =>
    ((serviceVolumeDecls s).map (fun v => (extractVolume fs cwd v).1)).flatten)).flatten

/-- All `(path, owner)` pairs recorded by the extraction loop, in
iteration order. -/
def extractedVolumes (fs : FS) (cwd : String) (svcs : List Service) :
    List (String × String) :=
  (svcs.map (fun s =>
    (serviceVolumeDecls s).filterMap (fun v => (extractVolume fs cwd v).2))).flatten

/-- `volumes_from_compose_file()`: locate the compose file in the
current working directory (exit 1 if absent), require the `services`
key (exit 1 if absent), then run the extraction loop. -/
def volumes_from_compose_file (fs : FS) (cd : ComposeData) (st : PState) :
    Res (List (String × String)) :=
  match findComposeFile fs st.cwd with
  | none => Res.exit 1 (emit st (Event.msg (composeNotFoundMsg st.cwd)))
  | some _ =>
    match cd.services with
    | none => Res.exit 1 (emit st (Event.msg noServicesMsg))
    | some svcs =>
      Res.ok (extractedVolumes fs st.cwd svcs) (emitAll st (extractEvents fs st.cwd svcs))

/-- The per-volume step of the repair loop (body of
`fix_volumes_ownership`, lines 96-116):

* path not a directory: two warnings, no command;
* path owned by root: two warnings, no command;
* otherwise: `sudo chown -R <recorded owner> <path>`. -/
def repairVolume (fs : FS) (cwd : String) (v : String × String) : List Event :=
  if fs.isDir (resolvePath cwd v.1) = false then
    [Event.msg ("WARNING: You should probably create and/or set non root owner of volume folder: " ++ v.1),
     Event.msg ("sudo mkdir -p " ++ v.1 ++ " && sudo chown -R OWNER_HERE " ++ v.1)]
  else if fs.uidName (fs.ownerUid (resolvePath cwd v.1)) = "root" then
    [Event.msg ("WARNING: You should probably set non root owner of volume folder: " ++ v.1),
     Event.msg ("sudo chown -R OWNER_HERE " ++ v.1)]
  else
    [Event.cmd ["sudo", "chown", "-R", v.2, v.1]]

/-- The events of the whole repair loop over an extracted volume
list. -/
def repairAll (fs : FS) (cwd : String) (vols : List (String × String)) : List Event :=
  (vols.map (repairVolume fs cwd)).flatten

/-- `fix_volumes_ownership()`: extract the volumes (which may exit),
then run the repair loop over them. -/
def fix_volumes_ownership (fs : FS) (cd : ComposeData) (st : PState) : Res Unit :=
  match volumes_from_compose_file fs cd st with
  | Res.exit n st2 => Res.exit n st2
  | Res.ok vols st2 => Res.ok () (emitAll st2 (repairAll fs st2.cwd vols))

/-- `check_compose_file(project_path)`: change into the project
directory, require a compose file there (exit 1 otherwise), change
back. -/
def check_compose_file (fs : FS) (st : PState) (project_path : Option String) : Res Unit :=
  let p := change_cwd st project_path
  match findComposeFile fs p.2.cwd with
  | none => Res.exit 1 (emit p.2 (Event.msg checkComposeErrMsg))
  | some _ => Res.ok () { p.2 with cwd := resolvePath p.2.cwd p.1 }

/-- `backup(project_path)` (lines 137-172): change into the project
directory, derive the app name from the working directory; if
`/opt/<app>/data` is not a directory, print a skip message and return
WITHOUT restoring the working directory (the early `return` on line 150
skips the final `os.chdir(old_cwd)`); otherwise emit
`sudo mkdir -p`, `sudo cp -r`, `sudo chown 700 <snapshot>` (note:
`chown`, exactly as in the source line 162), the per-entry
`sudo chown -R` commands, the success message, and restore the working
directory. -/
def backup (fs : FS) (ts : String) (st : PState) (project_path : Option String) : PState :=
  let p := change_cwd st project_path
  let old_cwd := p.1
  let st1 := p.2
  let app_name := afterLastSlash st1.cwd
  let data_path := "/opt/" ++ app_name ++ "/data"
  if fs.isDir data_path = false then
    emit st1 (Event.msg ("Skipping backup: Nothing to backup at " ++ data_path))
  else
    let st2 := emit st1 (Event.cmd ["sudo", "mkdir", "-p", "/opt/" ++ app_name ++ "/backup"])
    let to_path := "/opt/" ++ app_name ++ "/backup/data_" ++ ts ++ "_utc"
    let st3 := emit st2 (Event.cmd ["sudo", "cp", "-r", data_path, to_path])
    let st4 := emit st3 (Event.cmd ["sudo", "chown", "700", to_path])
    let st5 := emitAll st4 ((fs.listDir data_path).map (fun entry =>
      Event.cmd ["sudo", "chown", "-R",
        fs.uidName (fs.ownerUid (data_path ++ "/" ++ entry)), to_path ++ "/" ++ entry]))
    let st6 := emit st5 (Event.msg ("Backed up data to " ++ to_path))
    { st6 with cwd := resolvePath st6.cwd old_cwd }

/-- `down_action(project_path)`: check for a compose file, change into
the project directory, run `docker-compose down`, change back. -/
def down_action (fs : FS) (st : PState) (project_path : Option String) : Res Unit :=
  match check_compose_file fs st project_path with
  | Res.exit n st2 => Res.exit n st2
  | Res.ok _ st2 =>
    let p := change_cwd st2 project_path
    let st3 := emit p.2 (Event.cmd ["docker-compose", "down"])
    Res.ok () { st3 with cwd := resolvePath st3.cwd p.1 }

/-- `up_action(project_path)`: check for a compose file, change into
the project directory, repair volume ownership, run
`docker-compose up -d`, change back. -/
def up_action (fs : FS) (cd : ComposeData) (st : PState) (project_path : Option String) :
    Res Unit :=
  match check_compose_file fs st project_path with
  | Res.exit n st2 => Res.exit n st2
  | Res.ok _ st2 =>
    let p := change_cwd st2 project_path
    match fix_volumes_ownership fs cd p.2 with
    | Res.exit n st3 => Res.exit n st3
    | Res.ok _ st3 =>
      let st4 := emit st3 (Event.cmd ["docker-compose", "up", "-d"])
      Res.ok () { st4 with cwd := resolvePath st4.cwd p.1 }

/-- `build(project_path)`: check for a compose file, change into the
project directory, run `docker-compose build`, change back. -/
def build (fs : FS) (st : PState) (project_path : Option String) : Res Unit :=
  match check_compose_file fs st project_path with
  | Res.exit n st2 => Res.exit n st2
  | Res.ok _ st2 =>
    let p := change_cwd st2 project_path
    let st3 := emit p.2 (Event.cmd ["docker-compose", "build"])
    Res.ok () { st3 with cwd := resolvePath st3.cwd p.1 }

/-- `info_action()`: run `docker ps`. -/
def info_action (st : PState) : PState :=
  emit st (Event.cmd ["docker", "ps"])

/-- `backup_action(project_path)`: check for a compose file, stop the
stack, back up the data, start the stack again. -/
def backup_action (fs : FS) (cd : ComposeData) (ts : String) (st : PState)
    (project_path : Option String) : Res Unit :=
  match check_compose_file fs st project_path with
  | Res.exit n st1 => Res.exit n st1
  | Res.ok _ st1 =>
    match down_action fs st1 project_path with
    | Res.exit n st2 => Res.exit n st2
    | Res.ok _ st2 =>
      let st3 := backup fs ts st2 project_path
      up_action fs cd st3 project_path

/-- `deploy_action(project_path, replace_path)` (lines 243-277).  In
replace mode: resolve both paths, move to `/`, verify a compose file at
the replace target, build the new project, stop the replace target,
`mv` the replace target to a timestamped sibling, `cp -r` the new
project into its place, run the full backup action against the replace
path, restore the working directory and print the report.  Calling the
replace branch with no project path is modelled as an exit with status
1 (in the source `os.path.abspath(None)` raises, aborting the
process).  Without a replace path: build then backup action. -/
def deploy_action (fs : FS) (cd : ComposeData) (ts : String) (st : PState)
    (project_path : Option String) (replace_path : Option String) : Res Unit :=
  match replace_path with
  | some rp =>
    match project_path with
    | none => Res.exit 1 st
    | some pp =>
      let replace_abs := resolvePath st.cwd rp
      let project_abs := resolvePath st.cwd pp
      let old_cwd := st.cwd
      let st0 : PState := { st with cwd := "/" }
      match check_compose_file fs st0 (some replace_abs) with
      | Res.exit n s => Res.exit n s
      | Res.ok _ s1 =>
        match build fs s1 (some project_abs) with
        | Res.exit n s => Res.exit n s
        | Res.ok _ s2 =>
          match down_action fs s2 (some replace_abs) with
          | Res.exit n s => Res.exit n s
          | Res.ok _ s3 =>
            let to_path := replace_abs ++ "_" ++ ts ++ "_utc"
            let s4 := emit s3 (Event.cmd ["mv", replace_abs, to_path])
            let s5 := emit s4 (Event.cmd ["cp", "-r", project_abs, replace_abs])
            match backup_action fs cd ts s5 (some replace_abs) with
            | Res.exit n s => Res.exit n s
            | Res.ok _ s6 =>
              let s7 : PState := { s6 with cwd := resolvePath s6.cwd old_cwd }
              let s8 := emit s7 (Event.msg
                ("Backed up project " ++ replace_abs ++ " to " ++ to_path
                  ++ " replaced with " ++ project_abs))
              let s9 := emit s8 (Event.msg ("You can now delete " ++ project_abs))
              Res.ok () s9
  | none =>
    match build fs st project_path with
    | Res.exit n s => Res.exit n s
    | Res.ok _ s1 => backup_action fs cd ts s1 project_path

/-! ## Derived trace vocabulary used in theorem statements -/

/-- The data directory convention `/opt/<project basename>/data`. -/
def dataDir (projDir : String) : String :=
  "/opt/" ++ afterLastSlash projDir ++ "/data"

/-- The backup directory convention `/opt/<project basename>/backup`. -/
def backupDir (projDir : String) : String :=
  "/opt/" ++ afterLastSlash projDir ++ "/backup"

/-- The timestamped snapshot directory created by `backup`. -/
def snapshotDir (ts projDir : String) : String :=
  "/opt/" ++ afterLastSlash projDir ++ "/backup/data_" ++ ts ++ "_utc"

/-- The event trace of a non-skipped `backup` run on project directory
`projDir`. -/
def backupTrace (fs : FS) (ts : String) (projDir : String) : List Event :=
  [Event.cmd ["sudo", "mkdir", "-p", backupDir projDir],
   Event.cmd ["sudo", "cp", "-r", dataDir projDir, snapshotDir ts projDir],
   Event.cmd ["sudo", "chown", "700", snapshotDir ts projDir]]
  ++ (fs.listDir (dataDir projDir)).map (fun entry =>
      Event.cmd ["sudo", "chown", "-R",
        fs.uidName (fs.ownerUid (dataDir projDir ++ "/" ++ entry)),
        snapshotDir ts projDir ++ "/" ++ entry])
  ++ [Event.msg ("Backed up data to " ++ snapshotDir ts projDir)]

/-- The event trace of a successful `fix_volumes_ownership` run in
directory `cwd` with service list `svcs`: extraction warnings followed
by the repair loop events. -/
def fixTrace (fs : FS) (cwd : String) (svcs : List Service) : List Event :=
  extractEvents fs cwd svcs ++ repairAll fs cwd (extractedVolumes fs cwd svcs)

/-- The events appended by one successful `up_action` run started from
working directory `cwd` with path argument `pp`. -/
def upTrace (fs : FS) (cd : ComposeData) (cwd : String) (pp : Option String) : List Event :=
  match cd.services with
  | none => []
  | some svcs =>
    fixTrace fs (targetDir cwd pp) svcs ++ [Event.cmd ["docker-compose", "up", "-d"]]

/-- The target path of a `chown` command event issued by the script
(`sudo chown -R <owner> <target>` or `sudo chown <owner> <target>`),
read off positionally. -/
def chownTarget : Event → Option String
  | Event.cmd ["sudo", "chown", "-R", _, t] => some t
  | Event.cmd ["sudo", "chown", _, t] => some t
  | _ => none

/-- Recognises the copy commands issued by the script
(`cp ...` or `sudo cp ...`). -/
def isCpCmd : Event → Bool
  | Event.cmd ("cp" :: _) => true
  | Event.cmd ("sudo" :: "cp" :: _) => true
  | _ => false

/-- True when the command event invokes `chmod` anywhere in its argv. -/
def mentionsChmod : Event → Bool
  | Event.cmd args => args.contains "chmod"
  | Event.msg _ => false

/-- The state carried by a `Res`, regardless of outcome. -/
def resultState : Res Unit → PState
  | Res.ok _ st => st
  | Res.exit _ st => st

/-! ## Concrete fixtures used in counterexamples and witnesses -/

/-- A filesystem on which every path is both a regular file and a
directory, everything is owned by uid 1000 named alice, and every
directory lists no entries. -/
def fsAll : FS :=
  { isFile := fun _ => true, isDir := fun _ => true,
    ownerUid := fun _ => 1000, uidName := fun _ => "alice",
    listDir := fun _ => [] }

/-- A filesystem with no files and no directories. -/
def fsNone : FS :=
  { isFile := fun _ => false, isDir := fun _ => false,
    ownerUid := fun _ => 0, uidName := fun _ => "root",
    listDir := fun _ => [] }

/-- A filesystem on which every path is a regular file but nothing is a
directory. -/
def fsFilesOnly : FS :=
  { isFile := fun _ => true, isDir := fun _ => false,
    ownerUid := fun _ => 0, uidName := fun _ => "root",
    listDir := fun _ => [] }

/-- Initial state at the filesystem root with an empty trace. -/
def stSlash : PState := { cwd := "/", events := [] }

/-- A compose file with a `services` key declaring no services. -/
def cdEmpty : ComposeData := { services := some [] }

/-- The state after one concrete successful down run. -/
def stDownRun : PState := resultState (down_action fsAll stSlash none)

/-- The state after one concrete successful up run. -/
def stUpOnce : PState := resultState (up_action fsAll cdEmpty stSlash none)

/-- The state after a second concrete successful up run. -/
def stUpTwice : PState := resultState (up_action fsAll cdEmpty stUpOnce none)

/-! ## Path and string lemmas -/

theorem isPrefixOfChars_append (p r : List Char) : isPrefixOfChars p (p ++ r) = true := by
  induction p with
  | nil => rfl
  | cons c cs ih => simp [isPrefixOfChars, ih]

theorem strStartsWith_append (pre rest : String) :
    strStartsWith pre (pre ++ rest) = true := by
  simp [strStartsWith, String.data_append, isPrefixOfChars_append]

theorem resolvePath_of_abs (cwd p : String) (h : pathIsAbs p = true) :
    resolvePath cwd p = p := by
  simp [resolvePath, h]

theorem targetDir_abs (cwd : String) (pp : Option String)
    (hc : pathIsAbs cwd = true) (hp : optPathAbs pp = true) :
    pathIsAbs (targetDir cwd pp) = true := by
  cases pp with
  | none => exact hc
  | some p =>
    have hp' : pathIsAbs p = true := hp
    simpa [targetDir, resolvePath_of_abs cwd p hp'] using hp'

theorem targetDir_idem (cwd : String) (pp : Option String) (hp : optPathAbs pp = true) :
    targetDir (targetDir cwd pp) pp = targetDir cwd pp := by
  cases pp with
  | none => rfl
  | some p =>
    have hp' : pathIsAbs p = true := hp
    simp [targetDir, resolvePath_of_abs _ p hp']

/-! ## Shape lemmas: the exact result of each action on its success and
failure paths -/

theorem findComposeFile_of_first (fs : FS) (cwd : String)
    (h : fs.isFile (resolvePath cwd "./docker-compose.yml") = true) :
    findComposeFile fs cwd = some "./docker-compose.yml" := by
  simp [findComposeFile, COMPOSE_FILES, List.find?, h]

theorem check_compose_file_ok (fs : FS) (st : PState) (pp : Option String) (c : String)
    (hf : findComposeFile fs (targetDir st.cwd pp) = some c)
    (habs : pathIsAbs st.cwd = true) :
    check_compose_file fs st pp = Res.ok () st := by
  simp [check_compose_file, change_cwd, hf, resolvePath_of_abs _ _ habs]

theorem check_compose_file_none (fs : FS) (st : PState) (pp : Option String)
    (hf : findComposeFile fs (targetDir st.cwd pp) = none) :
    check_compose_file fs st pp =
      Res.exit 1 { cwd := targetDir st.cwd pp,
                   events := st.events ++ [Event.msg checkComposeErrMsg] } := by
  simp [check_compose_file, change_cwd, hf, emit]

theorem down_action_ok (fs : FS) (st : PState) (pp : Option String) (c : String)
    (hf : findComposeFile fs (targetDir st.cwd pp) = some c)
    (habs : pathIsAbs st.cwd = true) :
    down_action fs st pp =
      Res.ok () { st with events := st.events ++ [Event.cmd ["docker-compose", "down"]] } := by
  simp [down_action, check_compose_file_ok fs st pp c hf habs, change_cwd, emit,
    resolvePath_of_abs _ _ habs]

theorem build_ok (fs : FS) (st : PState) (pp : Option String) (c : String)
    (hf : findComposeFile fs (targetDir st.cwd pp) = some c)
    (habs : pathIsAbs st.cwd = true) :
    build fs st pp =
      Res.ok () { st with events := st.events ++ [Event.cmd ["docker-compose", "build"]] } := by
  simp [build, check_compose_file_ok fs st pp c hf habs, change_cwd, emit,
    resolvePath_of_abs _ _ habs]

theorem fix_volumes_ownership_ok (fs : FS) (cd : ComposeData) (st : PState)
    (svcs : List Service) (c : String)
    (hf : findComposeFile fs st.cwd = some c)
    (hs : cd.services = some svcs) :
    fix_volumes_ownership fs cd st = Res.ok () (emitAll st (fixTrace fs st.cwd svcs)) := by
  simp [fix_volumes_ownership, volumes_from_compose_file, hf, hs, fixTrace, emitAll,
    List.append_assoc]

theorem up_action_ok (fs : FS) (cd : ComposeData) (st : PState) (pp : Option String)
    (svcs : List Service) (c : String)
    (hf : findComposeFile fs (targetDir st.cwd pp) = some c)
    (hs : cd.services = some svcs)
    (habs : pathIsAbs st.cwd = true) :
    up_action fs cd st pp =
      Res.ok () { st with events := st.events ++ upTrace fs cd st.cwd pp } := by
  have hfix := fix_volumes_ownership_ok fs cd
    ({ st with cwd := targetDir st.cwd pp } : PState) svcs c hf hs
  simp [up_action, check_compose_file_ok fs st pp c hf habs, change_cwd, hfix, emit,
    emitAll, upTrace, hs, resolvePath_of_abs _ _ habs, List.append_assoc]

theorem down_action_ok_inv (fs : FS) (st : PState) (pp : Option String) (st2 : PState)
    (habs : pathIsAbs st.cwd = true)
    (h : down_action fs st pp = Res.ok () st2) :
    st2.cwd = st.cwd ∧
      st2.events = st.events ++ [Event.cmd ["docker-compose", "down"]] := by
  cases hf : findComposeFile fs (targetDir st.cwd pp) with
  | none =>
    rw [down_action, check_compose_file_none fs st pp hf] at h
    cases h
  | some c =>
    rw [down_action_ok fs st pp c hf habs] at h
    simp only [Res.ok.injEq] at h
    rw [← h.2]
    exact ⟨rfl, rfl⟩

theorem build_ok_inv (fs : FS) (st : PState) (pp : Option String) (st2 : PState)
    (habs : pathIsAbs st.cwd = true)
    (h : build fs st pp = Res.ok () st2) :
    st2.cwd = st.cwd ∧
      st2.events = st.events ++ [Event.cmd ["docker-compose", "build"]] := by
  cases hf : findComposeFile fs (targetDir st.cwd pp) with
  | none =>
    rw [build, check_compose_file_none fs st pp hf] at h
    cases h
  | some c =>
    rw [build_ok fs st pp c hf habs] at h
    simp only [Res.ok.injEq] at h
    rw [← h.2]
    exact ⟨rfl, rfl⟩

theorem up_action_ok_inv (fs : FS) (cd : ComposeData) (st : PState) (pp : Option String)
    (st2 : PState) (habs : pathIsAbs st.cwd = true)
    (h : up_action fs cd st pp = Res.ok () st2) :
    st2.cwd = st.cwd ∧ st2.events = st.events ++ upTrace fs cd st.cwd pp := by
  cases hf : findComposeFile fs (targetDir st.cwd pp) with
  | none =>
    rw [up_action, check_compose_file_none fs st pp hf] at h
    cases h
  | some c =>
    cases hs : cd.services with
    | none =>
      rw [up_action, check_compose_file_ok fs st pp c hf habs] at h
      simp [fix_volumes_ownership, volumes_from_compose_file, change_cwd, hf, hs] at h
    | some svcs =>
      rw [up_action_ok fs cd st pp svcs c hf hs habs] at h
      simp only [Res.ok.injEq] at h
      rw [← h.2]
      exact ⟨rfl, rfl⟩

theorem backup_skip_shape (fs : FS) (ts : String) (st : PState) (pp : Option String)
    (h : fs.isDir (dataDir (targetDir st.cwd pp)) = false) :
    backup fs ts st pp =
      { cwd := targetDir st.cwd pp,
        events := st.events ++ [Event.msg
          ("Skipping backup: Nothing to backup at " ++ dataDir (targetDir st.cwd pp))] } := by
  have h' : fs.isDir ("/opt/" ++ afterLastSlash (targetDir st.cwd pp) ++ "/data") = false := h
  simp [backup, change_cwd, h', emit, dataDir]

theorem isPrefixOfChars_mono (p : List Char) : ∀ (l m : List Char),
    isPrefixOfChars p l = true → isPrefixOfChars p (l ++ m) = true := by
  induction p with
  | nil => intro l m _; rfl
  | cons c cs ih =>
    intro l m h
    cases l with
    | nil => simp [isPrefixOfChars] at h
    | cons d ds =>
      simp [isPrefixOfChars] at h ⊢
      exact ⟨h.1, ih ds m h.2⟩

theorem pathIsAbs_append (a b : String) (ha : pathIsAbs a = true) :
    pathIsAbs (a ++ b) = true := by
  unfold pathIsAbs strStartsWith at *
  rw [String.data_append]
  exact isPrefixOfChars_mono _ _ _ ha

theorem dataDir_abs (projDir : String) : pathIsAbs (dataDir projDir) = true :=
  pathIsAbs_append _ _ (pathIsAbs_append "/opt/" _ rfl)

theorem find_first_split {α : Type} (p : α → Bool) : ∀ (l : List α) (a : α),
    l.find? p = some a →
      ∃ l₁ l₂, l = l₁ ++ a :: l₂ ∧ (∀ x ∈ l₁, p x = false) ∧ p a = true := by
  intro l
  induction l with
  | nil => intro a h; simp [List.find?] at h
  | cons x xs ih =>
    intro a h
    by_cases hx : p x = true
    · rw [List.find?_cons_of_pos _ hx] at h
      obtain rfl : x = a := by injection h
      exact ⟨[], xs, rfl, by simp, hx⟩
    · have hx' : p x = false := by simpa using hx
      rw [List.find?_cons_of_neg] at h
      · obtain ⟨l₁, l₂, rfl, h1, h2⟩ := ih a h
        refine ⟨x :: l₁, l₂, rfl, ?_, h2⟩
        intro y hy
        rcases List.mem_cons.mp hy with rfl | hy
        · exact hx'
        · exact h1 y hy
      · simpa using hx

theorem takeUntilColon_append (l r : List Char) (hl : ¬ ':' ∈ l) :
    takeUntilColon (l ++ ':' :: r) = l := by
  induction l with
  | nil => simp [takeUntilColon]
  | cons c cs ih =>
    rw [List.mem_cons] at hl
    push_neg at hl
    have hc : ¬ c = ':' := fun h => hl.1 h.symm
    simp [takeUntilColon, hc, ih hl.2]

theorem string_mk_data_append (a b : String) : String.mk (a.data ++ b.data) = a ++ b := by
  rw [← String.data_append]

theorem volumeHostPath_concat (pre x post : String)
    (hpre : ¬ ':' ∈ pre.data) (hx : ¬ ':' ∈ x.data) :
    volumeHostPath (pre ++ x ++ (":" ++ post)) = pre ++ x := by
  have hdata : (pre ++ x ++ (":" ++ post)).data = (pre.data ++ x.data) ++ ':' :: post.data := by
    simp [String.data_append]
  rw [volumeHostPath, hdata, takeUntilColon_append _ _ (by
    rw [List.mem_append]; push_neg; exact ⟨hpre, hx⟩)]
  rw [← String.data_append]

theorem repairVolume_chown (fs : FS) (cwd : String) (v : String × String) (e : Event)
    (he : e ∈ repairVolume fs cwd v) (t : String) (ht : chownTarget e = some t) :
    t = v.1 ∧ fs.isDir (resolvePath cwd v.1) = true := by
  unfold repairVolume at he
  by_cases h1 : fs.isDir (resolvePath cwd v.1) = false
  · rw [if_pos h1] at he
    simp only [List.mem_cons, List.not_mem_nil, or_false] at he
    rcases he with rfl | rfl <;> simp [chownTarget] at ht
  · rw [if_neg h1] at he
    have h1' : fs.isDir (resolvePath cwd v.1) = true := by simpa using h1
    by_cases h2 : fs.uidName (fs.ownerUid (resolvePath cwd v.1)) = "root"
    · rw [if_pos h2] at he
      simp only [List.mem_cons, List.not_mem_nil, or_false] at he
      rcases he with rfl | rfl <;> simp [chownTarget] at ht
    · rw [if_neg h2] at he
      simp only [List.mem_cons, List.not_mem_nil, or_false] at he
      subst he
      simp only [chownTarget, Option.some.injEq] at ht
      exact ⟨ht.symm, h1'⟩

theorem repairVolume_no_cp (fs : FS) (cwd : String) (v : String × String) (e : Event)
    (he : e ∈ repairVolume fs cwd v) : isCpCmd e = false := by
  unfold repairVolume at he
  by_cases h1 : fs.isDir (resolvePath cwd v.1) = false
  · rw [if_pos h1] at he
    simp only [List.mem_cons, List.not_mem_nil, or_false] at he
    rcases he with rfl | rfl <;> rfl
  · rw [if_neg h1] at he
    by_cases h2 : fs.uidName (fs.ownerUid (resolvePath cwd v.1)) = "root"
    · rw [if_pos h2] at he
      simp only [List.mem_cons, List.not_mem_nil, or_false] at he
      rcases he with rfl | rfl <;> rfl
    · rw [if_neg h2] at he
      simp only [List.mem_cons, List.not_mem_nil, or_false] at he
      subst he
      rfl

theorem repairAll_mem (fs : FS) (cwd : String) (vols : List (String × String)) (e : Event)
    (he : e ∈ repairAll fs cwd vols) : ∃ v ∈ vols, e ∈ repairVolume fs cwd v := by
  unfold repairAll at he
  rw [List.mem_flatten] at he
  obtain ⟨l, hl, hel⟩ := he
  rw [List.mem_map] at hl
  obtain ⟨v, hv, rfl⟩ := hl
  exact ⟨v, hv, hel⟩

theorem repairAll_chown_isDir (fs : FS) (cwd : String) (vols : List (String × String))
    (e : Event) (he : e ∈ repairAll fs cwd vols) (t : String)
    (ht : chownTarget e = some t) : fs.isDir (resolvePath cwd t) = true := by
  obtain ⟨v, _, hev⟩ := repairAll_mem fs cwd vols e he
  obtain ⟨rfl, hdir⟩ := repairVolume_chown fs cwd v e hev t ht
  exact hdir

theorem extractVolume_events_msg (fs : FS) (cwd : String) (v : String) (e : Event)
    (he : e ∈ (extractVolume fs cwd v).1) : ∃ m, e = Event.msg m := by
  simp only [extractVolume] at he
  by_cases h1 : fs.isDir (resolvePath cwd (volumeHostPath v)) = false
  · rw [if_pos h1] at he
    simp at he
  · rw [if_neg h1] at he
    by_cases h2 : strStartsWith "/opt/" v = false
    · rw [if_pos h2] at he
      simp at he
      exact ⟨_, he⟩
    · rw [if_neg h2] at he
      simp at he

theorem extractEvents_msg (fs : FS) (cwd : String) (svcs : List Service) (e : Event)
    (he : e ∈ extractEvents fs cwd svcs) : ∃ m, e = Event.msg m := by
  unfold extractEvents at he
  rw [List.mem_flatten] at he
  obtain ⟨l, hl, hel⟩ := he
  rw [List.mem_map] at hl
  obtain ⟨s, _, rfl⟩ := hl
  rw [List.mem_flatten] at hel
  obtain ⟨l2, hl2, hel2⟩ := hel
  rw [List.mem_map] at hl2
  obtain ⟨v, _, rfl⟩ := hl2
  exact extractVolume_events_msg fs cwd v e hel2

theorem fixTrace_all_safe (fs : FS) (cwd : String) (svcs : List Service) (p : String)
    (hp : pathIsAbs p = true) (hnd : fs.isDir p = false) :
    ((fixTrace fs cwd svcs).all
      (fun e => !(isCpCmd e) && !(chownTarget e == some p))) = true := by
  rw [List.all_eq_true]
  intro e he
  rw [fixTrace, List.mem_append] at he
  rcases he with he | he
  · obtain ⟨m, rfl⟩ := extractEvents_msg fs cwd svcs e he
    rfl
  · obtain ⟨v, _, hev⟩ := repairAll_mem fs cwd _ e he
    have hcp : isCpCmd e = false := repairVolume_no_cp fs cwd v e hev
    have hct : (chownTarget e == some p) = false := by
      cases ht : chownTarget e with
      | none => rfl
      | some t =>
        obtain ⟨hteq, hdir⟩ := repairVolume_chown fs cwd v e hev t ht
        by_cases htp : t = p
        · rw [htp] at hteq
          rw [← hteq, resolvePath_of_abs _ _ hp] at hdir
          exact absurd hdir (by simp [hnd])
        · simp [htp]
    simp [hcp, hct]

theorem backup_full_shape (fs : FS) (ts : String) (st : PState) (pp : Option String)
    (habs : pathIsAbs st.cwd = true)
    (h : fs.isDir (dataDir (targetDir st.cwd pp)) = true) :
    backup fs ts st pp =
      { cwd := st.cwd, events := st.events ++ backupTrace fs ts (targetDir st.cwd pp) } := by
  have h' : fs.isDir ("/opt/" ++ afterLastSlash (targetDir st.cwd pp) ++ "/data") = true := h
  simp [backup, change_cwd, h', emit, emitAll, backupTrace, dataDir, backupDir, snapshotDir,
    resolvePath_of_abs _ _ habs, List.append_assoc]

theorem backup_action_skip (fs : FS) (cd : ComposeData) (ts : String) (st : PState)
    (pp : Option String) (svcs : List Service) (c : String)
    (habs : pathIsAbs st.cwd = true) (hpa : optPathAbs pp = true)
    (hf : findComposeFile fs (targetDir st.cwd pp) = some c)
    (hs : cd.services = some svcs)
    (hnd : fs.isDir (dataDir (targetDir st.cwd pp)) = false) :
    backup_action fs cd ts st pp =
      Res.ok ()
        { cwd := targetDir st.cwd pp,
          events := st.events ++ [Event.cmd ["docker-compose", "down"]]
            ++ [Event.msg ("Skipping backup: Nothing to backup at "
                  ++ dataDir (targetDir st.cwd pp))]
            ++ fixTrace fs (targetDir st.cwd pp) svcs
            ++ [Event.cmd ["docker-compose", "up", "-d"]] } := by
  have hT : targetDir (targetDir st.cwd pp) pp = targetDir st.cwd pp := targetDir_idem _ _ hpa
  have habsT : pathIsAbs (targetDir st.cwd pp) = true := targetDir_abs _ _ habs hpa
  have hf2 : findComposeFile fs (targetDir (targetDir st.cwd pp) pp) = some c := by
    rw [hT]; exact hf
  simp only [backup_action, check_compose_file_ok fs st pp c hf habs,
    down_action_ok fs st pp c hf habs]
  rw [backup_skip_shape fs ts
    { cwd := st.cwd, events := st.events ++ [Event.cmd ["docker-compose", "down"]] } pp hnd]
  dsimp only
  rw [up_action_ok fs cd
    { cwd := targetDir st.cwd pp,
      events := st.events ++ [Event.cmd ["docker-compose", "down"]]
        ++ [Event.msg ("Skipping backup: Nothing to backup at "
              ++ dataDir (targetDir st.cwd pp))] }
    pp svcs c hf2 hs habsT]
  dsimp only
  simp [upTrace, hs, hT, List.append_assoc]

theorem backup_action_full (fs : FS) (cd : ComposeData) (ts : String) (st : PState)
    (pp : Option String) (svcs : List Service) (c : String)
    (habs : pathIsAbs st.cwd = true)
    (hf : findComposeFile fs (targetDir st.cwd pp) = some c)
    (hs : cd.services = some svcs)
    (hd : fs.isDir (dataDir (targetDir st.cwd pp)) = true) :
    backup_action fs cd ts st pp =
      Res.ok ()
        { cwd := st.cwd,
          events := st.events ++ [Event.cmd ["docker-compose", "down"]]
            ++ backupTrace fs ts (targetDir st.cwd pp)
            ++ fixTrace fs (targetDir st.cwd pp) svcs
            ++ [Event.cmd ["docker-compose", "up", "-d"]] } := by
  simp only [backup_action, check_compose_file_ok fs st pp c hf habs,
    down_action_ok fs st pp c hf habs]
  rw [backup_full_shape fs ts
    { cwd := st.cwd, events := st.events ++ [Event.cmd ["docker-compose", "down"]] } pp habs hd]
  dsimp only
  rw [up_action_ok fs cd
    { cwd := st.cwd,
      events := st.events ++ [Event.cmd ["docker-compose", "down"]]
        ++ backupTrace fs ts (targetDir st.cwd pp) } pp svcs c hf hs habs]
  dsimp only
  simp [upTrace, hs, List.append_assoc]

/-! ## Claim theorems -/

/-- C1 evidence: on a backup run from `/opt/app` whose data directory
exists, the command issued on the snapshot root right after the
recursive copy is `sudo chown 700 <snapshot>` — a privileged OWNERSHIP
change to user/uid `700` (source line 162) — and no `chmod` (permission
change) is invoked anywhere in the run, contradicting the claim that
the backup sets the snapshot root to owner-only permissions (mode
0700). -/
theorem C1_backup_chown700_without_chmod :
    Event.cmd ["sudo", "chown", "700", "/opt/app/backup/data_20250101_000000_utc"] ∈
      (backup fsAll "20250101_000000" { cwd := "/opt/app", events := [] } none).events ∧
    ((backup fsAll "20250101_000000" { cwd := "/opt/app", events := [] } none).events.all
      (fun e => !(mentionsChmod e))) = true := by
  decide

/-- C2 counterexample: `/home/x` does not start with `/opt/`, and with
the compose declaration `/home/x:/data` while `/home/x` is absent from
the filesystem the extractor DOES include `("/home/x", "root")` in its
returned list, refuting the claim that host paths outside /opt/ are omitted
regardless of existence. -/
theorem C2_counterexample :
    strStartsWith "/opt/" "/home/x" = false ∧
    ("/home/x", "root") ∈ extractedVolumes fsNone "/prj"
      [{ name := "app", volumes := some ["/home/x:/data"] }] := by
  decide

/-- C2 (amended): a volume declaration whose host path EXISTS as a
directory and which does not start with `/opt/` is omitted from the
extractor result (skipped with a warning); a non-existing host path is
instead recorded with sentinel owner root regardless of its prefix. -/
theorem C2_nonopt_existing_volume_omitted (fs : FS) (cwd v : String)
    (hd : fs.isDir (resolvePath cwd (volumeHostPath v)) = true)
    (hp : strStartsWith "/opt/" v = false) :
    (extractVolume fs cwd v).2 = none := by
  simp [extractVolume, hd, hp]

/-- C2 witness: a concrete existing volume declaration outside /opt/ is
omitted. -/
theorem C2_witness : (extractVolume fsAll "/prj" "/home/x:/data").2 = none :=
  C2_nonopt_existing_volume_omitted fsAll "/prj" "/home/x:/data" rfl (by decide)

/-- C3: for a host path that is not a directory, (a) the extraction
step records the sentinel pair `(path, "root")`, (b) the repair step on
any such pair prints exactly the two warning lines, (c) that repair
step issues no chown, and (d) no chown issued by any repair run targets
that path. -/
theorem C3_missing_path_sentinel_and_no_chown (fs : FS) (cwd p : String)
    (h : fs.isDir (resolvePath cwd p) = false) :
    (∀ v, volumeHostPath v = p → extractVolume fs cwd v = ([], some (p, "root"))) ∧
    (∀ o, repairVolume fs cwd (p, o) =
      [Event.msg ("WARNING: You should probably create and/or set non root owner of volume folder: " ++ p),
       Event.msg ("sudo mkdir -p " ++ p ++ " && sudo chown -R OWNER_HERE " ++ p)]) ∧
    (∀ o e, e ∈ repairVolume fs cwd (p, o) → chownTarget e = none) ∧
    (∀ vols e t, e ∈ repairAll fs cwd vols → chownTarget e = some t → t ≠ p) := by
  refine ⟨?_, ?_, ?_, ?_⟩
  · intro v hv
    simp [extractVolume, hv, h]
  · intro o
    simp [repairVolume, h]
  · intro o e he
    simp [repairVolume, h] at he
    rcases he with rfl | rfl <;> rfl
  · intro vols e t he ht hteq
    rw [hteq] at ht
    have hdir := repairAll_chown_isDir fs cwd vols e he p ht
    simp [h] at hdir

/-- C3 witness: concrete sentinel extraction for a missing path. -/
theorem C3_witness :
    extractVolume fsNone "/prj" "/opt/z:/d" = ([], some ("/opt/z", "root")) :=
  (C3_missing_path_sentinel_and_no_chown fsNone "/prj" "/opt/z" rfl).1 "/opt/z:/d" (by decide)

/-- C10: when backup skips because the data directory is missing, the
working directory is NOT restored: the final working directory is the
project directory (the early return on source line 150 skips the
`os.chdir(old_cwd)` on line 172), and the only new event is the skip
message. -/
theorem C10_backup_skip_keeps_project_cwd (fs : FS) (ts : String) (st : PState)
    (pp : Option String)
    (h : fs.isDir (dataDir (targetDir st.cwd pp)) = false) :
    (backup fs ts st pp).cwd = targetDir st.cwd pp ∧
    (backup fs ts st pp).events = st.events ++ [Event.msg
      ("Skipping backup: Nothing to backup at " ++ dataDir (targetDir st.cwd pp))] := by
  rw [backup_skip_shape fs ts st pp h]
  exact ⟨rfl, rfl⟩

/-- C10 witness: a concrete skipping run from `/home/op` on project
`/opt/app` ends in `/opt/app`, not back in `/home/op`. -/
theorem C10_witness :
    ((backup fsNone "20250101_000000" { cwd := "/home/op", events := [] }
        (some "/opt/app")).cwd = "/opt/app")
      ∧ "/opt/app" ≠ "/home/op" :=
  ⟨(C10_backup_skip_keeps_project_cwd fsNone "20250101_000000"
      { cwd := "/home/op", events := [] } (some "/opt/app") rfl).1, by decide⟩

/-- C6: every successful (non-exit) run of the up, down and build
actions restores the working directory: the final cwd equals the
initial cwd (under the real-world invariant that the initial cwd, as
returned by getcwd, is absolute). -/
theorem C6_actions_restore_cwd (fs : FS) (cd : ComposeData) (st : PState)
    (pp : Option String) (habs : pathIsAbs st.cwd = true) :
    (∀ st2, up_action fs cd st pp = Res.ok () st2 → st2.cwd = st.cwd) ∧
    (∀ st2, down_action fs st pp = Res.ok () st2 → st2.cwd = st.cwd) ∧
    (∀ st2, build fs st pp = Res.ok () st2 → st2.cwd = st.cwd) :=
  ⟨fun st2 h => (up_action_ok_inv fs cd st pp st2 habs h).1,
   fun st2 h => (down_action_ok_inv fs st pp st2 habs h).1,
   fun st2 h => (build_ok_inv fs st pp st2 habs h).1⟩

/-- C6 witness: a concrete successful down run from `/` ends back in
`/`. -/
theorem C6_witness : stDownRun.cwd = stSlash.cwd :=
  (C6_actions_restore_cwd fsAll cdEmpty stSlash none rfl).2.1 stDownRun rfl

/-- C7: the compose-file locator returns the first candidate of the
fixed priority list `COMPOSE_FILES` that is a regular file (every
earlier candidate is not a file); when none of the four names exists,
both `check_compose_file` and `volumes_from_compose_file` terminate
with exit status 1 having emitted only the error message (no further
action). -/
theorem C7_locator_first_match_or_exit1 (fs : FS) (st : PState) (pp : Option String) :
    (∀ c, findComposeFile fs (targetDir st.cwd pp) = some c →
      ∃ l₁ l₂, COMPOSE_FILES = l₁ ++ c :: l₂
        ∧ (∀ x ∈ l₁, fs.isFile (resolvePath (targetDir st.cwd pp) x) = false)
        ∧ fs.isFile (resolvePath (targetDir st.cwd pp) c) = true) ∧
    (findComposeFile fs (targetDir st.cwd pp) = none →
      check_compose_file fs st pp =
        Res.exit 1
          { cwd := targetDir st.cwd pp,
            events := st.events ++ [Event.msg checkComposeErrMsg] }) ∧
    (findComposeFile fs st.cwd = none → ∀ cd,
      volumes_from_compose_file fs cd st =
        Res.exit 1
          { cwd := st.cwd,
            events := st.events ++ [Event.msg (composeNotFoundMsg st.cwd)] }) := by
  refine ⟨?_, ?_, ?_⟩
  · intro c hc
    exact find_first_split _ _ _ hc
  · intro hn
    exact check_compose_file_none fs st pp hn
  · intro hn cd
    simp [volumes_from_compose_file, hn, emit]

/-- C7 witness: with no files at all, check_compose_file exits with
status 1 after printing only the error message. -/
theorem C7_witness :
    check_compose_file fsNone { cwd := "/prj", events := [] } none =
      Res.exit 1 { cwd := "/prj", events := [Event.msg checkComposeErrMsg] } :=
  (C7_locator_first_match_or_exit1 fsNone { cwd := "/prj", events := [] } none).2.1 rfl

/-- C8: a declaration of the shape `/opt/x:/container/path` (with `x`
colon-free) whose host path exists as a directory owned by the user
named `u` makes the extractor yield the pair `("/opt/" ++ x, u)` with
no warning. -/
theorem C8_existing_opt_volume_yields_owner (fs : FS) (cwd x u : String)
    (hx : ¬ ':' ∈ x.data)
    (hd : fs.isDir ("/opt/" ++ x) = true)
    (ho : fs.uidName (fs.ownerUid ("/opt/" ++ x)) = u) :
    extractVolume fs cwd ("/opt/" ++ x ++ ":/container/path") =
      ([], some ("/opt/" ++ x, u)) := by
  have habs : pathIsAbs ("/opt/" ++ x) = true := pathIsAbs_append "/opt/" x rfl
  have hpath : volumeHostPath ("/opt/" ++ x ++ ":/container/path") = "/opt/" ++ x := by
    have hsplit : ("/opt/" ++ x ++ ":/container/path")
        = "/opt/" ++ x ++ (":" ++ "/container/path") := by
      rw [show ((":" : String) ++ "/container/path") = ":/container/path" from rfl]
    rw [hsplit]
    exact volumeHostPath_concat "/opt/" x "/container/path" (by decide) hx
  have hstart : strStartsWith "/opt/" ("/opt/" ++ x ++ ":/container/path") = true := by
    rw [String.append_assoc]
    exact strStartsWith_append "/opt/" (x ++ ":/container/path")
  simp [extractVolume, hpath, resolvePath_of_abs _ _ habs, hd, hstart, ho]

/-- C8 witness: concrete extraction of an existing /opt/ volume owned
by alice. -/
theorem C8_witness :
    extractVolume fsAll "/prj" ("/opt/" ++ "app" ++ ":/container/path") =
      ([], some ("/opt/" ++ "app", "alice")) :=
  C8_existing_opt_volume_yields_owner fsAll "/prj" "app" "alice" (by decide) rfl rfl

/-- C9: with an unchanged filesystem and compose file, a second
successful up run appends exactly the same event suffix — in
particular the same sequence of ownership-repair chown calls — as the
first run: the repair set is recomputed each run, never gated. -/
theorem C9_up_twice_same_trace (fs : FS) (cd : ComposeData) (st st1 st2 : PState)
    (pp : Option String) (habs : pathIsAbs st.cwd = true)
    (h1 : up_action fs cd st pp = Res.ok () st1)
    (h2 : up_action fs cd st1 pp = Res.ok () st2) :
    ∃ E, st1.events = st.events ++ E ∧ st2.events = st1.events ++ E := by
  obtain ⟨hc1, he1⟩ := up_action_ok_inv fs cd st pp st1 habs h1
  have habs1 : pathIsAbs st1.cwd = true := by rw [hc1]; exact habs
  obtain ⟨hc2, he2⟩ := up_action_ok_inv fs cd st1 pp st2 habs1 h2
  refine ⟨upTrace fs cd st.cwd pp, he1, ?_⟩
  rw [he2, hc1]

/-- C9 witness: two concrete consecutive up runs append the same
suffix. -/
theorem C9_witness :
    ∃ E, stUpOnce.events = stSlash.events ++ E
      ∧ stUpTwice.events = stUpOnce.events ++ E :=
  C9_up_twice_same_trace fsAll cdEmpty stSlash stUpOnce stUpTwice none rfl rfl rfl

/-- C5: a backup_action run on a project whose `/opt/<name>/data`
directory does not exist prints the skip message, and the whole new
event suffix contains no copy command and no chown targeting the data
directory, while the surrounding down (before) and up (after) are still
performed: the trace is exactly down, skip message, the ownership-fix
events, up. -/
theorem C5_backup_skip_still_bracketed (fs : FS) (cd : ComposeData) (ts : String)
    (st : PState) (pp : Option String) (svcs : List Service) (c : String)
    (habs : pathIsAbs st.cwd = true) (hpa : optPathAbs pp = true)
    (hf : findComposeFile fs (targetDir st.cwd pp) = some c)
    (hs : cd.services = some svcs)
    (hnd : fs.isDir (dataDir (targetDir st.cwd pp)) = false) :
    ∃ st2, backup_action fs cd ts st pp = Res.ok () st2 ∧
      st2.events = st.events ++ [Event.cmd ["docker-compose", "down"]]
        ++ [Event.msg ("Skipping backup: Nothing to backup at "
              ++ dataDir (targetDir st.cwd pp))]
        ++ fixTrace fs (targetDir st.cwd pp) svcs
        ++ [Event.cmd ["docker-compose", "up", "-d"]] ∧
      ((fixTrace fs (targetDir st.cwd pp) svcs).all
        (fun e => !(isCpCmd e)
          && !(chownTarget e == some (dataDir (targetDir st.cwd pp))))) = true := by
  refine ⟨_, backup_action_skip fs cd ts st pp svcs c habs hpa hf hs hnd, rfl, ?_⟩
  exact fixTrace_all_safe fs (targetDir st.cwd pp) svcs (dataDir (targetDir st.cwd pp))
    (dataDir_abs _) hnd

/-- C5 witness: a concrete backup_action run with a compose file but no
data directory. -/
theorem C5_witness :
    ∃ st2, backup_action fsFilesOnly cdEmpty "20250101_000000" stSlash none
        = Res.ok () st2 ∧
      st2.events = stSlash.events ++ [Event.cmd ["docker-compose", "down"]]
        ++ [Event.msg ("Skipping backup: Nothing to backup at "
              ++ dataDir (targetDir stSlash.cwd none))]
        ++ fixTrace fsFilesOnly (targetDir stSlash.cwd none) []
        ++ [Event.cmd ["docker-compose", "up", "-d"]] ∧
      ((fixTrace fsFilesOnly (targetDir stSlash.cwd none) []).all
        (fun e => !(isCpCmd e)
          && !(chownTarget e == some (dataDir (targetDir stSlash.cwd none))))) = true :=
  C5_backup_skip_still_bracketed fsFilesOnly cdEmpty "20250101_000000" stSlash none []
    "./docker-compose.yml" rfl rfl rfl rfl rfl

/-- C4: replace-mode deploy with a compose file present at both the
replace target and the new project, and an existing data directory at
the replace target, performs exactly, in order: the compose-file check
at the replace target (no events), build of the new project, down of
the replace target, rename of the replace target to the timestamped
sibling, recursive copy of the new project into the replace path, then
the full backup_action bracket against the replace path (down, data
copy into the snapshot, up), followed by the two report messages. -/
theorem C4_deploy_replace_sequence (fs : FS) (cd : ComposeData) (ts : String) (st : PState)
    (pp rp : String) (svcs : List Service) (c1 c2 : String)
    (habs : pathIsAbs st.cwd = true)
    (hppa : pathIsAbs pp = true) (hrpa : pathIsAbs rp = true)
    (hfr : findComposeFile fs rp = some c1)
    (hfp : findComposeFile fs pp = some c2)
    (hs : cd.services = some svcs)
    (hd : fs.isDir (dataDir rp) = true) :
    ∃ st2, deploy_action fs cd ts st (some pp) (some rp) = Res.ok () st2 ∧
      st2.events = st.events
        ++ [Event.cmd ["docker-compose", "build"],
            Event.cmd ["docker-compose", "down"],
            Event.cmd ["mv", rp, rp ++ "_" ++ ts ++ "_utc"],
            Event.cmd ["cp", "-r", pp, rp],
            Event.cmd ["docker-compose", "down"]]
        ++ backupTrace fs ts rp
        ++ fixTrace fs rp svcs
        ++ [Event.cmd ["docker-compose", "up", "-d"],
            Event.msg ("Backed up project " ++ rp ++ " to "
              ++ (rp ++ "_" ++ ts ++ "_utc") ++ " replaced with " ++ pp),
            Event.msg ("You can now delete " ++ pp)] := by
  have hT : targetDir "/" (some rp) = rp := resolvePath_of_abs "/" rp hrpa
  have hTp : targetDir "/" (some pp) = pp := resolvePath_of_abs "/" pp hppa
  have hfr2 : findComposeFile fs (targetDir "/" (some rp)) = some c1 := by
    rw [hT]; exact hfr
  have hfp2 : findComposeFile fs (targetDir "/" (some pp)) = some c2 := by
    rw [hTp]; exact hfp
  have hd2 : fs.isDir (dataDir (targetDir "/" (some rp))) = true := by
    rw [hT]; exact hd
  refine ⟨{ cwd := st.cwd,
            events := st.events
              ++ [Event.cmd ["docker-compose", "build"],
                  Event.cmd ["docker-compose", "down"],
                  Event.cmd ["mv", rp, rp ++ "_" ++ ts ++ "_utc"],
                  Event.cmd ["cp", "-r", pp, rp],
                  Event.cmd ["docker-compose", "down"]]
              ++ backupTrace fs ts rp
              ++ fixTrace fs rp svcs
              ++ [Event.cmd ["docker-compose", "up", "-d"],
                  Event.msg ("Backed up project " ++ rp ++ " to "
                    ++ (rp ++ "_" ++ ts ++ "_utc") ++ " replaced with " ++ pp),
                  Event.msg ("You can now delete " ++ pp)] }, ?_, rfl⟩
  simp only [deploy_action, resolvePath_of_abs st.cwd rp hrpa,
    resolvePath_of_abs st.cwd pp hppa]
  rw [check_compose_file_ok fs { cwd := "/", events := st.events } (some rp) c1 hfr2 rfl]
  dsimp only
  rw [build_ok fs { cwd := "/", events := st.events } (some pp) c2 hfp2 rfl]
  dsimp only
  rw [down_action_ok fs
    { cwd := "/", events := st.events ++ [Event.cmd ["docker-compose", "build"]] }
    (some rp) c1 hfr2 rfl]
  dsimp only
  simp only [emit]
  rw [backup_action_full fs cd ts
    { cwd := "/",
      events := st.events ++ [Event.cmd ["docker-compose", "build"]]
        ++ [Event.cmd ["docker-compose", "down"]]
        ++ [Event.cmd ["mv", rp, rp ++ "_" ++ ts ++ "_utc"]]
        ++ [Event.cmd ["cp", "-r", pp, rp]] }
    (some rp) svcs c1 rfl hfr2 hs hd2]
  dsimp only
  rw [resolvePath_of_abs "/" st.cwd habs]
  simp [emit, hT, List.append_assoc]

/-- C4 witness: a concrete replace-mode deploy run ordering build,
down, mv, cp and the backup bracket. -/
theorem C4_witness :
    ∃ st2, deploy_action fsAll cdEmpty "20250101_000000" stSlash (some "/new")
        (some "/prod/app") = Res.ok () st2 ∧
      st2.events = stSlash.events
        ++ [Event.cmd ["docker-compose", "build"],
            Event.cmd ["docker-compose", "down"],
            Event.cmd ["mv", "/prod/app", "/prod/app" ++ "_" ++ "20250101_000000" ++ "_utc"],
            Event.cmd ["cp", "-r", "/new", "/prod/app"],
            Event.cmd ["docker-compose", "down"]]
        ++ backupTrace fsAll "20250101_000000" "/prod/app"
        ++ fixTrace fsAll "/prod/app" []
        ++ [Event.cmd ["docker-compose", "up", "-d"],
            Event.msg ("Backed up project " ++ "/prod/app" ++ " to "
              ++ ("/prod/app" ++ "_" ++ "20250101_000000" ++ "_utc")
              ++ " replaced with " ++ "/new"),
            Event.msg ("You can now delete " ++ "/new")] :=
  C4_deploy_replace_sequence fsAll cdEmpty "20250101_000000" stSlash "/new" "/prod/app" []
    "./docker-compose.yml" "./docker-compose.yml" rfl rfl rfl rfl rfl rfl rfl

end DockerDeploy
